import Mathlib

/-!
Verification development for the Oasis OS workflow execution supervisor and
its frontend/express companions.

The repository ships the supervisor's documentation (`backend/README.md`,
`backend/QUICKSTART.md`, `backend/INTEGRATION_GUIDE.md`), a JS client
(`backend/frontend_integration_example.js`), and the Next.js/Express
front-end sources, but the Python backend implementation itself
(`backend/services/workflow_service.py`, `backend/routers/workflow.py`) is
not among the source files.  Definitions for the supervisor are therefore
modelled from the specification; definitions for the frontend polling loop
and the Express components router are translated from the shipped sources.
-/

namespace OasisOS

/-- Workflow status, the five values documented in `backend/README.md`
("Workflow Status" section) and used by the frontend polling code. -/
inductive WStatus where
  | pending
  | running
  | completed
  | failed
  | cancelled
deriving DecidableEq

/-- A status is terminal when it is `completed`, `failed` or `cancelled`. -/
def WStatus.isTerminal : WStatus → Bool
  | .completed => true
  | .failed => true
  | .cancelled => true
  | _ => false

/-- Modelled from the spec: the model alias-rewrite table. The backend code
holding the table is missing from the sources; `backend/QUICKSTART.md`
documents the single mapping "Auto Model Conversion: gpt-4.1 -> gpt-4o",
applied once at creation. -/
def rewriteModel (m : String) : String :=
  if m = "gpt-4.1" then "gpt-4o" else m

/-- Modelled from the spec: the `WorkflowRecord` of section 3 of the spec.
The backend module defining the record is missing from the sources.
Timestamp fields (`createdAt`, `startedAt`, `completedAt`) are elided: no
claim under verification depends on their values.  `processAlive` stands
for the liveness of the owned process handle. -/
structure WorkflowRecord where
  id : Nat
  query : String
  model : String
  status : WStatus
  message : String
  logs : String
  processAlive : Bool
deriving DecidableEq

/-- Modelled from the spec: the forced-termination path ("process-group
kill") used both by cancellation and by the execution timeout. The backend
code is missing from the sources. -/
def forceTerminate (r : WorkflowRecord) : WorkflowRecord :=
  { r with processAlive := false }

/-- Modelled from the spec: message recorded on an explicit cancel. -/
def cancelledMessage : String := "Workflow cancelled by user"

/-- Modelled from the spec: the timeout-specific message for the
wall-clock budget expiring. -/
def executionTimeoutMessage : String := "Workflow execution timed out"

/-- Modelled from the spec: message for a handshake that never saw the
agent's prompt within the bounded wait. -/
def handshakeTimeoutMessage : String := "No prompt received from agent process"

/-- Modelled from the spec: the events the Lifecycle Controller reacts to
(section 4.5 of the spec).  The backend controller code is missing from
the sources.  `classifierResult ok out msg` is the Output Classifier's
verdict together with the trailing output it read. -/
inductive WEvent where
  | spawnOk
  | spawnError (msg : String)
  | handshakeTimeout
  | classifierResult (ok : Bool) (out : String) (msg : String)
  | cancelReq
  | execTimeout
deriving DecidableEq

/-- Modelled from the spec: the Lifecycle Controller's transition function
(section 4.5).  The backend controller code is missing from the sources.
A record already in a terminal state is owned by whichever event won the
transition right: a loser's terminal write is dropped, except that late
classifier output is still appended to `logs`.  Cancellation and timeout
terminate the process through the same `forceTerminate` path. -/
def stepRecord (r : WorkflowRecord) (e : WEvent) : WorkflowRecord :=
  if r.status.isTerminal then
    match e with
    | .classifierResult _ out _ => { r with logs := r.logs ++ out }
    | _ => r
  else
    match e with
    | .spawnOk =>
        if r.status = .pending then { r with status := .running } else r
    | .spawnError m =>
        { r with status := .failed, message := m }
    | .handshakeTimeout =>
        { (forceTerminate r) with status := .failed, message := handshakeTimeoutMessage }
    | .classifierResult ok out m =>
        if ok then
          { r with status := .completed, message := m, logs := r.logs ++ out }
        else
          { r with status := .failed, message := m, logs := r.logs ++ out }
    | .cancelReq =>
        { (forceTerminate r) with status := .cancelled, message := cancelledMessage }
    | .execTimeout =>
        if r.status = .running then
          { (forceTerminate r) with status := .failed, message := executionTimeoutMessage }
        else r

/-- The status observed after the first `t` events of a trace have been
applied to an initial record. -/
def statusAt (r0 : WorkflowRecord) (tr : List WEvent) (t : Nat) : WStatus :=
  ((tr.take t).foldl stepRecord r0).status

lemma stepRecord_status_of_terminal (r : WorkflowRecord) (e : WEvent)
    (h : r.status.isTerminal = true) : (stepRecord r e).status = r.status := by
  unfold stepRecord
  rw [if_pos h]
  cases e <;> rfl

lemma foldl_stepRecord_status_of_terminal (tr : List WEvent) :
    ∀ r : WorkflowRecord, r.status.isTerminal = true →
      (tr.foldl stepRecord r).status = r.status := by
  induction tr with
  | nil => intro r _; rfl
  | cons e tr ih =>
      intro r h
      have hs := stepRecord_status_of_terminal r e h
      have hterm : (stepRecord r e).status.isTerminal = true := by rw [hs]; exact h
      calc ((e :: tr).foldl stepRecord r).status
          = (tr.foldl stepRecord (stepRecord r e)).status := rfl
        _ = (stepRecord r e).status := ih (stepRecord r e) hterm
        _ = r.status := hs

/-- A sample record freshly created in state `pending` (used by the
concrete witnesses below). -/
def recPending : WorkflowRecord :=
  { id := 0, query := "open calculator", model := rewriteModel "gpt-4.1",
    status := .pending, message := "Workflow queued for execution",
    logs := "", processAlive := false }

/-- A sample trace: a cancel followed by a late classifier success. -/
def traceSample : List WEvent :=
  [WEvent.cancelReq, WEvent.classifierResult true " late output" "ok"]

/-- C1: once the status observed at time `t1` is terminal, the status
observed at any later time `t2` is equal to it — status transitions are
monotonic and no terminal state is ever left. -/
theorem claim_c1_status_never_regresses
    (r0 : WorkflowRecord) (tr : List WEvent) (t1 t2 : Nat)
    (hle : t1 ≤ t2) (hterm : (statusAt r0 tr t1).isTerminal = true) :
    statusAt r0 tr t2 = statusAt r0 tr t1 := by
  have hsplit : tr.take t2 = tr.take t1 ++ (tr.drop t1).take (t2 - t1) := by
    have := List.take_add tr t1 (t2 - t1)
    rwa [Nat.add_sub_cancel' hle] at this
  unfold statusAt at *
  rw [hsplit, List.foldl_append]
  exact foldl_stepRecord_status_of_terminal _ _ hterm

/-- Witness for C1 at a concrete record and trace: after a cancel at step 1
the status observed at step 2 is still the one observed at step 1. -/
theorem claim_c1_status_never_regresses_witness :
    statusAt recPending traceSample 2 = statusAt recPending traceSample 1 :=
  claim_c1_status_never_regresses recPending traceSample 1 2 (by decide) (by decide)

/-- Modelled from the spec: the Status API's cancel operation (REST
`DELETE /api/v1/workflow/:id`).  The backend route code is missing from
the sources.  Per section 6 of the spec it is idempotent and returns a
success flag; cancelling an already-terminal workflow is a no-op success.
The record transition is delegated to the Lifecycle Controller step. -/
def cancelWorkflow (r : WorkflowRecord) : WorkflowRecord × Bool :=
  (stepRecord r .cancelReq, true)

lemma cancelWorkflow_status_terminal (r : WorkflowRecord) :
    (cancelWorkflow r).1.status.isTerminal = true := by
  unfold cancelWorkflow stepRecord
  by_cases h : r.status.isTerminal = true
  · rw [if_pos h]; exact h
  · rw [if_neg h]; rfl

lemma stepRecord_of_terminal_cancel (r : WorkflowRecord)
    (h : r.status.isTerminal = true) : stepRecord r .cancelReq = r := by
  unfold stepRecord
  rw [if_pos h]

lemma stepRecord_cancel_of_nonterminal (r : WorkflowRecord)
    (h : r.status.isTerminal = false) :
    stepRecord r .cancelReq
      = { (forceTerminate r) with status := .cancelled,
                                   message := cancelledMessage } := by
  unfold stepRecord
  rw [if_neg (by simp [h])]

lemma stepRecord_classifier_of_terminal (r : WorkflowRecord)
    (ok : Bool) (out m : String) (h : r.status.isTerminal = true) :
    stepRecord r (.classifierResult ok out m)
      = { r with logs := r.logs ++ out } := by
  unfold stepRecord
  rw [if_pos h]

/-- A sample record already in the terminal state `completed`. -/
def recDone : WorkflowRecord :=
  { id := 7, query := "open calculator", model := "gpt-4o",
    status := .completed, message := "Workflow executed successfully",
    logs := "Task completed", processAlive := false }

/-- C2: cancel always reports success; on an already-terminal workflow it
leaves the record (in particular its status) unchanged, and cancel is
idempotent. -/
theorem claim_c2_cancel_idempotent_noop_on_terminal (r : WorkflowRecord) :
    (cancelWorkflow r).2 = true ∧
    (r.status.isTerminal = true → (cancelWorkflow r).1 = r) ∧
    (cancelWorkflow (cancelWorkflow r).1).1 = (cancelWorkflow r).1 := by
  refine ⟨rfl, ?_, ?_⟩
  · intro h
    exact stepRecord_of_terminal_cancel r h
  · exact stepRecord_of_terminal_cancel _ (cancelWorkflow_status_terminal r)

/-- Witness for C2 at a concrete terminal record: cancelling it reports
success and leaves the record unchanged. -/
theorem claim_c2_cancel_idempotent_noop_on_terminal_witness :
    (cancelWorkflow recDone).2 = true ∧ (cancelWorkflow recDone).1 = recDone :=
  ⟨(claim_c2_cancel_idempotent_noop_on_terminal recDone).1,
   (claim_c2_cancel_idempotent_noop_on_terminal recDone).2.1 (by decide)⟩

/-- C3: when the cancel request wins the record's transition right before
the classifier's result, the status becomes `cancelled`; the classifier's
late terminal write is dropped (status stays `cancelled`, its output is
still appended to the logs), and no later event sequence ever makes the
workflow `completed`. -/
theorem claim_c3_cancel_beats_classifier
    (r : WorkflowRecord) (ok : Bool) (out m : String) (tr : List WEvent)
    (h : r.status.isTerminal = false) :
    (stepRecord r .cancelReq).status = .cancelled ∧
    (stepRecord (stepRecord r .cancelReq) (.classifierResult ok out m)).status
      = .cancelled ∧
    (stepRecord (stepRecord r .cancelReq) (.classifierResult ok out m)).logs
      = (stepRecord r .cancelReq).logs ++ out ∧
    (tr.foldl stepRecord
        (stepRecord (stepRecord r .cancelReq) (.classifierResult ok out m))).status
      ≠ .completed := by
  have hcancel : (stepRecord r .cancelReq).status = .cancelled := by
    rw [stepRecord_cancel_of_nonterminal r h]
  have hterm1 : (stepRecord r .cancelReq).status.isTerminal = true := by
    rw [hcancel]; rfl
  have hlate :
      (stepRecord (stepRecord r .cancelReq) (.classifierResult ok out m))
        = { stepRecord r .cancelReq with logs := (stepRecord r .cancelReq).logs ++ out } :=
    stepRecord_classifier_of_terminal _ ok out m hterm1
  have hstat2 :
      (stepRecord (stepRecord r .cancelReq) (.classifierResult ok out m)).status
        = .cancelled := by rw [hlate]; exact hcancel
  have hterm2 :
      (stepRecord (stepRecord r .cancelReq)
        (.classifierResult ok out m)).status.isTerminal = true := by
    rw [hstat2]; rfl
  refine ⟨hcancel, hstat2, by rw [hlate], ?_⟩
  rw [foldl_stepRecord_status_of_terminal tr _ hterm2, hstat2]
  intro hc
  cases hc

/-- Witness for C3: a freshly created pending record, cancelled before the
handshake completes, never reaches `completed` even after a late
classifier success and a further event. -/
theorem claim_c3_cancel_beats_classifier_witness :
    (List.foldl stepRecord
        (stepRecord (stepRecord recPending WEvent.cancelReq)
          (WEvent.classifierResult true " late output" "ok"))
        [WEvent.execTimeout]).status ≠ WStatus.completed :=
  (claim_c3_cancel_beats_classifier recPending true " late output" "ok"
    [WEvent.execTimeout] (by decide)).2.2.2

/-- A sample record in state `running`. -/
def recRunning : WorkflowRecord :=
  { recPending with status := .running, message := "Workflow execution started" }

/-- C4: the wall-clock timeout forces a running workflow to `failed` with
the timeout-specific message, its process is no longer alive, and the
transition goes through the identical forced-termination path
(`forceTerminate`) as cancellation. -/
theorem claim_c4_timeout_forces_failed (r : WorkflowRecord)
    (h : r.status = .running) :
    (stepRecord r .execTimeout).status = .failed ∧
    (stepRecord r .execTimeout).message = executionTimeoutMessage ∧
    (stepRecord r .execTimeout).processAlive = false ∧
    stepRecord r .execTimeout
      = { (forceTerminate r) with status := .failed,
                                   message := executionTimeoutMessage } ∧
    stepRecord r .cancelReq
      = { (forceTerminate r) with status := .cancelled,
                                   message := cancelledMessage } := by
  have hnt : r.status.isTerminal = false := by rw [h]; rfl
  have he : stepRecord r .execTimeout
      = { (forceTerminate r) with status := .failed,
                                   message := executionTimeoutMessage } := by
    unfold stepRecord
    rw [if_neg (by simp [hnt])]
    simp [h]
  have hc : stepRecord r .cancelReq
      = { (forceTerminate r) with status := .cancelled,
                                   message := cancelledMessage } :=
    stepRecord_cancel_of_nonterminal r hnt
  exact ⟨by rw [he], by rw [he], by rw [he]; rfl, he, hc⟩

/-- Witness for C4 at a concrete running record. -/
theorem claim_c4_timeout_forces_failed_witness :
    (stepRecord recRunning .execTimeout).status = .failed ∧
    (stepRecord recRunning .execTimeout).message = executionTimeoutMessage ∧
    (stepRecord recRunning .execTimeout).processAlive = false :=
  ⟨(claim_c4_timeout_forces_failed recRunning (by decide)).1,
   (claim_c4_timeout_forces_failed recRunning (by decide)).2.1,
   (claim_c4_timeout_forces_failed recRunning (by decide)).2.2.1⟩

/-- Modelled from the spec: a freshly created `WorkflowRecord` in state
`pending`, with the alias-rewrite table applied once to the model field.
The backend creation code is missing from the sources. -/
def mkRecord (i : Nat) (q m : String) : WorkflowRecord :=
  { id := i, query := q, model := rewriteModel m, status := .pending,
    message := "Workflow queued for execution", logs := "",
    processAlive := false }

/-- Modelled from the spec: the Workflow Registry (section 4.1), the
in-memory identifier-to-record table with a monotone identifier source.
The backend registry code is missing from the sources. -/
structure Registry where
  nextId : Nat
  table : List (Nat × WorkflowRecord)
deriving DecidableEq

/-- Modelled from the spec: `create(query, model) -> id` of the Registry
contract; inserts exactly one new record under a never-reused identifier.
The backend registry code is missing from the sources. -/
def Registry.create (g : Registry) (q m : String) : Registry × Nat :=
  ({ nextId := g.nextId + 1,
     table := (g.nextId, mkRecord g.nextId q m) :: g.table }, g.nextId)

/-- Modelled from the spec: `get(id) -> record | NotFound` of the Registry
contract. The backend registry code is missing from the sources. -/
def Registry.get (g : Registry) (i : Nat) : Option WorkflowRecord :=
  (g.table.find? (fun p => p.1 == i)).map (fun p => p.2)

/-- A sequence of create requests folded through the Registry, returning
the final registry and the identifiers handed out, in order. -/
def createMany (g : Registry) : List (String × String) → Registry × List Nat
  | [] => (g, [])
  | (q, m) :: rest =>
      let p := g.create q m
      let pr := createMany p.1 rest
      (pr.1, p.2 :: pr.2)

lemma createMany_nextId_le (reqs : List (String × String)) :
    ∀ g : Registry, g.nextId ≤ (createMany g reqs).1.nextId := by
  induction reqs with
  | nil => intro g; exact Nat.le_refl _
  | cons qm rest ih =>
      intro g
      have h1 : g.nextId ≤ g.nextId + 1 := Nat.le_succ _
      exact Nat.le_trans h1 (ih (g.create qm.1 qm.2).1)

lemma createMany_ids_lower (reqs : List (String × String)) :
    ∀ g : Registry, ∀ i ∈ (createMany g reqs).2, g.nextId ≤ i := by
  induction reqs with
  | nil => intro g i hi; cases hi
  | cons qm rest ih =>
      intro g i hi
      rcases List.mem_cons.mp hi with h | h
      · subst h; exact Nat.le_refl _
      · have := ih (g.create qm.1 qm.2).1 i h
        exact Nat.le_trans (Nat.le_succ _) this

lemma createMany_ids_nodup (reqs : List (String × String)) :
    ∀ g : Registry, (createMany g reqs).2.Nodup := by
  induction reqs with
  | nil => intro g; exact List.nodup_nil
  | cons qm rest ih =>
      intro g
      refine List.nodup_cons.mpr ⟨?_, ih (g.create qm.1 qm.2).1⟩
      intro hmem
      have hlow := createMany_ids_lower rest (g.create qm.1 qm.2).1 g.nextId hmem
      have hstep : (g.create qm.1 qm.2).1.nextId = g.nextId + 1 := rfl
      omega

lemma Registry.create_get_isSome (g : Registry) (q m : String) (i : Nat)
    (h : (g.get i).isSome = true) : ((g.create q m).1.get i).isSome = true := by
  unfold Registry.get at *
  unfold Registry.create
  by_cases hb : (g.nextId == i) = true
  · simp [List.find?, hb]
  · simp only [List.find?]
    rw [Bool.eq_false_iff.mpr hb]
    exact h

lemma Registry.create_get_new (g : Registry) (q m : String) :
    (g.create q m).1.get (g.create q m).2 = some (mkRecord g.nextId q m) := by
  unfold Registry.create Registry.get
  simp [List.find?]

lemma createMany_get_mono (reqs : List (String × String)) :
    ∀ g : Registry, ∀ i : Nat, (g.get i).isSome = true →
      ((createMany g reqs).1.get i).isSome = true := by
  induction reqs with
  | nil => intro g i h; exact h
  | cons qm rest ih =>
      intro g i h
      exact ih (g.create qm.1 qm.2).1 i (Registry.create_get_isSome g qm.1 qm.2 i h)

/-- C5: over any sequence of accepted create requests the returned
identifiers are pairwise distinct (never reused), and a status query
(`get`) for any returned identifier on the resulting registry succeeds
rather than reporting NotFound. -/
theorem claim_c5_ids_unique_and_resolvable
    (g : Registry) (reqs : List (String × String)) :
    (createMany g reqs).2.Nodup ∧
    ∀ i ∈ (createMany g reqs).2, ((createMany g reqs).1.get i).isSome = true := by
  refine ⟨createMany_ids_nodup reqs g, ?_⟩
  induction reqs generalizing g with
  | nil => intro i hi; cases hi
  | cons qm rest ih =>
      intro i hi
      rcases List.mem_cons.mp hi with h | h
      · subst h
        apply createMany_get_mono rest (g.create qm.1 qm.2).1
        rw [Registry.create_get_new g qm.1 qm.2]
        rfl
      · exact ih (g.create qm.1 qm.2).1 i h

/-- The empty registry a fresh supervisor process starts from. -/
def regInit : Registry := { nextId := 0, table := [] }

/-- Two rapid successive create requests with identical query text. -/
def reqsSample : List (String × String) :=
  [("open calculator", "gpt-4.1"), ("open calculator", "gpt-4.1")]

/-- Witness for C5: two identical rapid creates yield distinct ids and the
first id resolves on the final registry. -/
theorem claim_c5_ids_unique_and_resolvable_witness :
    (createMany regInit reqsSample).2.Nodup ∧
    ((createMany regInit reqsSample).1.get 0).isSome = true :=
  ⟨(claim_c5_ids_unique_and_resolvable regInit reqsSample).1,
   (claim_c5_ids_unique_and_resolvable regInit reqsSample).2 0 (by decide)⟩

/-- Modelled from the spec: the command line the Process Launcher invokes
for a record; `backend/INTEGRATION_GUIDE.md` documents it as
`python -m gui_agents.s1.cli_app --model <model>`.  The backend launcher
code is missing from the sources. -/
def launchCommand (r : WorkflowRecord) : List String :=
  ["python", "-m", "gui_agents.s1.cli_app", "--model", r.model]

/-- C8: the alias-rewrite table maps `gpt-4.1` to `gpt-4o`; it is applied
to the model field exactly once at record creation (the created record
stores the rewritten name, and the Registry's create inserts exactly that
record); the spawned process is invoked with the rewritten concrete name;
and no lifecycle event ever re-evaluates or changes the model field. -/
theorem claim_c8_model_alias_rewritten_once :
    rewriteModel "gpt-4.1" = "gpt-4o" ∧
    (∀ i : Nat, ∀ q m : String, (mkRecord i q m).model = rewriteModel m) ∧
    (∀ g : Registry, ∀ q m : String,
      (g.create q m).1.get (g.create q m).2 = some (mkRecord g.nextId q m)) ∧
    (∀ r : WorkflowRecord,
      launchCommand r = ["python", "-m", "gui_agents.s1.cli_app", "--model", r.model]) ∧
    launchCommand (mkRecord 0 "open calculator" "gpt-4.1")
      = ["python", "-m", "gui_agents.s1.cli_app", "--model", "gpt-4o"] ∧
    (∀ r : WorkflowRecord, ∀ e : WEvent, (stepRecord r e).model = r.model) := by
  refine ⟨rfl, fun i q m => rfl, fun g q m => Registry.create_get_new g q m,
    fun r => rfl, by decide, ?_⟩
  intro r e
  unfold stepRecord
  by_cases h : r.status.isTerminal = true
  · rw [if_pos h]; cases e <;> rfl
  · rw [if_neg h]
    cases e with
    | spawnOk => by_cases hp : r.status = .pending <;> simp [hp]
    | spawnError m => rfl
    | handshakeTimeout => rfl
    | classifierResult ok out m => by_cases hk : ok = true <;> simp [hk, forceTerminate]
    | cancelReq => rfl
    | execTimeout => by_cases hp : r.status = .running <;> simp [hp, forceTerminate]

/-- Whether the pattern list is an initial segment of the other list. -/
def leadsWith : List Char → List Char → Bool
  | [], _ => true
  | _ :: _, [] => false
  | a :: p, b :: h => a == b && leadsWith p h

/-- Whether the pattern occurs as a contiguous run somewhere in the list. -/
def subOccursL (p : List Char) : List Char → Bool
  | [] => leadsWith p []
  | b :: h => leadsWith p (b :: h) || subOccursL p h

/-- Substring occurrence on strings (the prompt-marker match of the
Driver: a marker substring anywhere in a chunk, not an exact position). -/
def occursIn (pat s : String) : Bool := subOccursL pat.data s.data

/-- The agent's first prompt marker, documented in
`backend/INTEGRATION_GUIDE.md` ("CLI Input Sequence"). -/
def queryPromptMarker : String := "Query: "

/-- The agent's second prompt marker, documented in
`backend/INTEGRATION_GUIDE.md` ("CLI Input Sequence"). -/
def continuePromptMarker : String := "Would you like to provide another query? (y/n): "

/-- The negative answer written after the second prompt
(`backend/INTEGRATION_GUIDE.md`: the backend sends "n\n" to exit). -/
def negativeAnswer : String := "n\n"

/-- The query text followed by a line terminator
(`backend/INTEGRATION_GUIDE.md`: the backend sends the user query + "\n"). -/
def queryLine (q : String) : String := q ++ "\n"

/-- Modelled from the spec: the state of the Interactive Protocol Driver,
an explicit two-state machine (awaiting-query-prompt,
awaiting-continue-prompt) plus a finished state (section 9 of the spec).
The backend driver code is missing from the sources. -/
inductive DriverState where
  | awaitQuery
  | awaitContinue
  | finished
deriving DecidableEq

/-- Modelled from the spec: one step of the Interactive Protocol Driver on
one output chunk (section 4.3): match the prompt marker as a substring,
write the corresponding input exactly once, advance; otherwise write
nothing.  The backend driver code is missing from the sources. -/
def driverStep (q : String) (s : DriverState) (chunk : String) :
    DriverState × List String :=
  match s with
  | .awaitQuery =>
      if occursIn queryPromptMarker chunk then (.awaitContinue, [queryLine q])
      else (.awaitQuery, [])
  | .awaitContinue =>
      if occursIn continuePromptMarker chunk then (.finished, [negativeAnswer])
      else (.awaitContinue, [])
  | .finished => (.finished, [])

/-- The Driver run over a whole sequence of output chunks, collecting in
order everything it writes to the process's input stream. -/
def driverRun (q : String) (s : DriverState) : List String → DriverState × List String
  | [] => (s, [])
  | c :: cs =>
      let p := driverStep q s c
      let pr := driverRun q p.1 cs
      (pr.1, p.2 ++ pr.2)

lemma driverRun_finished (q : String) (cs : List String) :
    driverRun q .finished cs = (.finished, []) := by
  induction cs with
  | nil => rfl
  | cons c cs ih => simp [driverRun, driverStep, ih]

lemma driverRun_awaitContinue (q : String) (cs : List String) :
    driverRun q .awaitContinue cs = (.awaitContinue, []) ∨
    driverRun q .awaitContinue cs = (.finished, [negativeAnswer]) := by
  induction cs with
  | nil => exact Or.inl rfl
  | cons c cs ih =>
      by_cases h : occursIn continuePromptMarker c = true
      · right
        simp [driverRun, driverStep, h, driverRun_finished]
      · rcases ih with ih | ih
        · left; simp [driverRun, driverStep, h, ih]
        · right; simp [driverRun, driverStep, h, ih]

lemma driverRun_awaitContinue_hits (q : String) (cs : List String)
    (h : ∃ c ∈ cs, occursIn continuePromptMarker c = true) :
    driverRun q .awaitContinue cs = (.finished, [negativeAnswer]) := by
  induction cs with
  | nil => rcases h with ⟨c, hc, _⟩; cases hc
  | cons c cs ih =>
      by_cases hc : occursIn continuePromptMarker c = true
      · simp [driverRun, driverStep, hc, driverRun_finished]
      · rcases h with ⟨d, hd, hdm⟩
        rcases List.mem_cons.mp hd with h1 | h1
        · subst h1; exact absurd hdm hc
        · simp [driverRun, driverStep, hc, ih ⟨d, h1, hdm⟩]

lemma driverRun_awaitQuery (q : String) (cs : List String) :
    driverRun q .awaitQuery cs = (.awaitQuery, []) ∨
    driverRun q .awaitQuery cs = (.awaitContinue, [queryLine q]) ∨
    driverRun q .awaitQuery cs = (.finished, [queryLine q, negativeAnswer]) := by
  induction cs with
  | nil => exact Or.inl rfl
  | cons c cs ih =>
      by_cases h : occursIn queryPromptMarker c = true
      · rcases driverRun_awaitContinue q cs with hc | hc
        · right; left; simp [driverRun, driverStep, h, hc]
        · right; right; simp [driverRun, driverStep, h, hc]
      · rcases ih with ih | ih | ih
        · left; simp [driverRun, driverStep, h, ih]
        · right; left; simp [driverRun, driverStep, h, ih]
        · right; right; simp [driverRun, driverStep, h, ih]

lemma driverRun_append (q : String) (s : DriverState) (l1 l2 : List String) :
    driverRun q s (l1 ++ l2)
      = ((driverRun q (driverRun q s l1).1 l2).1,
         (driverRun q s l1).2 ++ (driverRun q (driverRun q s l1).1 l2).2) := by
  induction l1 generalizing s with
  | nil => simp [driverRun]
  | cons c l1 ih =>
      simp only [List.cons_append, driverRun, List.append_eq]
      rw [ih]
      simp [List.append_assoc]

/-- C6: the Driver's writes over any chunk sequence form an initial
segment of [query line, negative answer] — so each input is written at
most once per prompt occurrence and a duplicate prompt never resends the
query — and whenever the enter-query prompt occurs in some chunk and the
run-another-query prompt occurs in a strictly later chunk, the writes are
exactly the query line followed by the negative answer, each once. -/
theorem claim_c6_driver_writes_each_input_once (q : String) (chunks : List String) :
    ((driverRun q .awaitQuery chunks).2 = [] ∨
     (driverRun q .awaitQuery chunks).2 = [queryLine q] ∨
     (driverRun q .awaitQuery chunks).2 = [queryLine q, negativeAnswer]) ∧
    (∀ xs ys zs : List String, ∀ c1 c2 : String,
      chunks = xs ++ c1 :: (ys ++ c2 :: zs) →
      occursIn queryPromptMarker c1 = true →
      occursIn continuePromptMarker c2 = true →
      (driverRun q .awaitQuery chunks).2 = [queryLine q, negativeAnswer]) := by
  constructor
  · rcases driverRun_awaitQuery q chunks with h | h | h <;> simp [h]
  · intro xs ys zs c1 c2 heq h1 h2
    subst heq
    rw [driverRun_append]
    rcases driverRun_awaitQuery q xs with hx | hx | hx
    · rw [hx]
      simp only [driverRun, driverStep, h1, if_pos]
      rw [driverRun_append]
      rcases driverRun_awaitContinue q ys with hy | hy
      · rw [hy]
        simp only [driverRun, driverStep, h2, if_pos, driverRun_finished]
        simp [queryLine]
      · rw [hy]
        simp [driverRun_finished, queryLine]
    · rw [hx]
      have : driverRun q DriverState.awaitContinue (c1 :: (ys ++ c2 :: zs))
          = (.finished, [negativeAnswer]) := by
        apply driverRun_awaitContinue_hits
        exact ⟨c2, by simp, h2⟩
      rw [this]
      rfl
    · rw [hx]
      rw [driverRun_finished]
      simp

/-- Witness for C6: a concrete run in which the first prompt appears
twice; the query line is still written exactly once, then the negative
answer once. -/
theorem claim_c6_driver_writes_each_input_once_witness :
    (driverRun "open calculator" .awaitQuery
      ["Query: ", "Query: ",
       "Would you like to provide another query? (y/n): "]).2
      = [queryLine "open calculator", negativeAnswer] :=
  (claim_c6_driver_writes_each_input_once "open calculator"
      ["Query: ", "Query: ",
       "Would you like to provide another query? (y/n): "]).2
    [] ["Query: "] []
    "Query: " "Would you like to provide another query? (y/n): "
    (by rfl) (by decide) (by decide)

/-- Modelled from the spec: the completion markers of the agent's known
output vocabulary (section 4.4; `backend/INTEGRATION_GUIDE.md`:
"Monitors output for completion indicators").  The backend classifier code
is missing from the sources; representative marker text is chosen. -/
def completionMarkers : List String :=
  ["Task completed successfully", "Task completed"]

/-- Modelled from the spec: the error markers of the agent's known output
vocabulary (section 4.4).  The backend classifier code is missing from the
sources; representative marker text is chosen. -/
def errorMarkers : List String :=
  ["Error:", "Traceback (most recent call last)"]

/-- Whether any marker of the list occurs in the output text. -/
def hasMarker (ms : List String) (out : String) : Bool :=
  ms.any (fun m => occursIn m out)

/-- Modelled from the spec: the Output Classifier's verdict once the
stream has closed and the exit code is known (section 4.4): a non-zero
exit fails, a recognizable error marker fails, a recognizable completion
marker with a zero exit completes, and a close without any completion
marker fails.  The backend classifier code is missing from the sources. -/
def classifyRun (out : String) (exitCode : Int) : WStatus :=
  if exitCode ≠ 0 then .failed
  else if hasMarker errorMarkers out then .failed
  else if hasMarker completionMarkers out then .completed
  else .failed

/-- An output transcript containing both an error marker and, later, a
completion marker. -/
def mixedOutput : String :=
  "Traceback (most recent call last)\nretrying\nTask completed successfully"

/-- Counterexample to C7 as stated: on an output carrying both an error
marker and a completion marker, with a zero exit code, the completion
marker is observed and the exit code is zero, yet the classifier does not
classify the run as successful (the error marker forces failure) — the
claimed "exactly when completion marker and zero exit" equivalence fails. -/
theorem claim_c7_counterexample :
    hasMarker completionMarkers mixedOutput = true ∧
    classifyRun mixedOutput 0 = .failed ∧
    classifyRun mixedOutput 0 ≠ .completed := by
  refine ⟨by decide, by decide, by decide⟩

/-- C7 (amended): the classifier reports success exactly when the process
exited zero, no recognizable error marker was emitted, and a recognizable
completion marker was observed; it reports failure when the process exits
non-zero, emits a recognizable error marker, or the output closes without
any completion marker. -/
theorem claim_c7_classifier_verdict (out : String) (exitCode : Int) :
    (classifyRun out exitCode = .completed ↔
      exitCode = 0 ∧ hasMarker errorMarkers out = false ∧
        hasMarker completionMarkers out = true) ∧
    ((exitCode ≠ 0 ∨ hasMarker errorMarkers out = true ∨
        hasMarker completionMarkers out = false) →
      classifyRun out exitCode = .failed) := by
  unfold classifyRun
  by_cases h1 : exitCode = 0
  · by_cases h2 : hasMarker errorMarkers out = true
    · simp [h1, h2]
    · by_cases h3 : hasMarker completionMarkers out = true
      · simp [h1, h2, h3]
      · simp [h1, h2, h3]
  · simp [h1]

/-- Witness for C7 (amended) at a concrete clean transcript with zero
exit: the classifier reports success. -/
theorem claim_c7_classifier_verdict_witness :
    classifyRun "Task completed successfully" 0 = .completed :=
  (claim_c7_classifier_verdict "Task completed successfully" 0).1.mpr
    ⟨rfl, by decide, by decide⟩

/-- One tick of the `setInterval` polling loop of `handleCustomWorkflow`
(frontend `landing/page.tsx`): the counter is incremented, one status
request is issued (`checkStatus`, whose response is `resp a`), and the
interval is cleared when the response is terminal (`completed` resolves,
`failed`/`cancelled` throw — both clear the interval) or when the attempt
counter has reached `maxAttempts`.  `fuel` bounds the recursion; it is
instantiated so that it never runs out before the stop condition fires. -/
def pollGo (resp : Nat → WStatus) (maxAttempts : Nat) :
    Nat → Nat → Nat
  | _, 0 => 0
  | attempts, fuel + 1 =>
      let a := attempts + 1
      if (resp a).isTerminal = true ∨ maxAttempts ≤ a then 1
      else 1 + pollGo resp maxAttempts a fuel

/-- The total number of status requests issued by the polling loop of
`handleCustomWorkflow`, which starts at attempt counter 0 and uses
`maxAttempts = 150` in the source. -/
def pollCount (resp : Nat → WStatus) (maxAttempts : Nat) : Nat :=
  pollGo resp maxAttempts 0 maxAttempts

lemma pollGo_le_fuel (resp : Nat → WStatus) (maxAttempts : Nat) :
    ∀ fuel attempts, pollGo resp maxAttempts attempts fuel ≤ fuel := by
  intro fuel
  induction fuel with
  | zero => intro attempts; exact Nat.le_refl 0
  | succ fuel ih =>
      intro attempts
      unfold pollGo
      by_cases h : (resp (attempts + 1)).isTerminal = true ∨ maxAttempts ≤ attempts + 1
      · rw [if_pos h]; omega
      · rw [if_neg h]
        have := ih (attempts + 1)
        omega

lemma pollGo_first_terminal (resp : Nat → WStatus) (maxAttempts k : Nat)
    (hkm : k ≤ maxAttempts) (hk : (resp k).isTerminal = true)
    (hbefore : ∀ j, j < k → 1 ≤ j → (resp j).isTerminal = false) :
    ∀ fuel attempts, attempts < k → k ≤ attempts + fuel →
      pollGo resp maxAttempts attempts fuel = k - attempts := by
  intro fuel
  induction fuel with
  | zero => intro attempts h1 h2; omega
  | succ fuel ih =>
      intro attempts h1 h2
      unfold pollGo
      by_cases he : attempts + 1 = k
      · rw [if_pos]
        · omega
        · left; rw [he]; exact hk
      · have hlt : attempts + 1 < k := by omega
        rw [if_neg]
        · have := ih (attempts + 1) hlt (by omega)
          omega
        · intro hor
          rcases hor with hterm | hmax
          · rw [hbefore (attempts + 1) hlt (by omega)] at hterm
            cases hterm
          · omega

/-- C9: the 2-second polling loop of `handleCustomWorkflow` issues at most
150 status requests over any response sequence (so at most 150 before the
interval is cleared when no response is terminal), and it stops at the
first response whose status is terminal: if the k-th response (k ≤ 150) is
the first terminal one, exactly k requests are issued. -/
theorem claim_c9_polling_bounded_and_stops_at_terminal
    (resp : Nat → WStatus) :
    pollCount resp 150 ≤ 150 ∧
    ∀ k, 1 ≤ k → k ≤ 150 → (resp k).isTerminal = true →
      (∀ j, j < k → 1 ≤ j → (resp j).isTerminal = false) →
      pollCount resp 150 = k := by
  constructor
  · exact pollGo_le_fuel resp 150 150 0
  · intro k h1 h2 hk hbefore
    unfold pollCount
    have := pollGo_first_terminal resp 150 k h2 hk hbefore 150 0 (by omega) (by omega)
    omega

/-- Witness for C9: a response stream whose first response is already
terminal makes the loop issue exactly one request. -/
theorem claim_c9_polling_bounded_and_stops_at_terminal_witness :
    pollCount (fun _ => WStatus.completed) 150 = 1 :=
  (claim_c9_polling_bounded_and_stops_at_terminal (fun _ => WStatus.completed)).2
    1 (by decide) (by decide) (by decide) (by intro j h1 h2; omega)

/-- A component of the Express components router (the mock agent data of
`routes/components.ts`). -/
structure Component where
  id : String
  name : String
  description : String
  category : String
  difficulty : String
  dependencies : List String
  tags : List String
deriving DecidableEq

/-- The ten fixed components of the Express router, transcribed from the
`components` constant of `routes/components.ts`.  No route handler ever
mutates this list (every handler only filters or maps it), so it is a
constant here. -/
def components : List Component :=
  [ { id := "workspace-agent", name := "Workspace Agent",
      description := "Sets up folders, auto-generates docs, organizes files",
      category := "automation", difficulty := "advanced",
      dependencies := ["fs", "path"],
      tags := ["workspace", "automation", "organization", "productivity"] },
    { id := "file-agent", name := "File Agent",
      description := "Finds files, renames, sorts by context",
      category := "file-management", difficulty := "medium",
      dependencies := ["fs", "glob"],
      tags := ["files", "search", "organization", "context"] },
    { id := "note-agent", name := "Note Agent",
      description := "Creates daily notes, pulls content from meetings",
      category := "documentation", difficulty := "medium",
      dependencies := ["markdown", "date-fns"],
      tags := ["notes", "meetings", "documentation", "daily"] },
    { id := "focus-agent", name := "Focus Agent",
      description := "Minimizes notifications, sets focus timers",
      category := "productivity", difficulty := "easy",
      dependencies := ["notification-api"],
      tags := ["focus", "productivity", "timer", "notifications"] },
    { id := "project-tracker", name := "Project Tracker",
      description := "Tracks project status, deadlines, and progress",
      category := "project-management", difficulty := "medium",
      dependencies := ["database"],
      tags := ["projects", "tracking", "deadlines", "status"] },
    { id := "time-tracker", name := "Time Tracker",
      description := "Automatically tracks time spent on projects",
      category := "productivity", difficulty := "medium",
      dependencies := ["timer", "analytics"],
      tags := ["time", "tracking", "productivity", "analytics"] },
    { id := "email-agent", name := "Email Agent",
      description := "Manages email drafts and follow-ups",
      category := "communication", difficulty := "advanced",
      dependencies := ["email-api"],
      tags := ["email", "communication", "drafts", "follow-up"] },
    { id := "backup-agent", name := "Backup Agent",
      description := "Automatically backs up important files",
      category := "security", difficulty := "medium",
      dependencies := ["fs", "cloud-storage"],
      tags := ["backup", "security", "files", "automation"] },
    { id := "template-agent", name := "Template Agent",
      description := "Generates project templates and boilerplate",
      category := "automation", difficulty := "easy",
      dependencies := ["fs", "handlebars"],
      tags := ["templates", "boilerplate", "automation", "projects"] },
    { id := "analytics-agent", name := "Analytics Agent",
      description := "Provides insights on productivity and workflow",
      category := "analytics", difficulty := "advanced",
      dependencies := ["analytics", "charts"],
      tags := ["analytics", "insights", "productivity", "data"] } ]

/-- The response of the get-by-id route: the found component (HTTP 200) or
an HTTP 404 body echoing the requested id. -/
inductive ComponentIdResponse where
  | ok (c : Component)
  | notFound (id : String)
deriving DecidableEq

/-- The `router.get(:id)` handler of `routes/components.ts`: look the id up
with `components.find(comp => comp.id === id)`; respond 404 with the
requested id in the body when nothing matches, else respond with the
component. -/
def getComponentById (i : String) : ComponentIdResponse :=
  match components.find? (fun c => c.id == i) with
  | some c => .ok c
  | none => .notFound i

lemma components_id_injective :
    ∀ c ∈ components, ∀ d ∈ components, c.id = d.id → c = d := by
  decide

/-- C10: the get-by-id route responds 404 echoing the requested id exactly
when the id matches none of the ten fixed components; any 200 response
carries a listed component whose id equals the parameter; and every listed
component with a matching id is the (unique) one returned. -/
theorem claim_c10_component_lookup (i : String) :
    (getComponentById i = .notFound i ↔ ∀ c ∈ components, c.id ≠ i) ∧
    (∀ c : Component, getComponentById i = .ok c → c ∈ components ∧ c.id = i) ∧
    (∀ c ∈ components, c.id = i → getComponentById i = .ok c) := by
  unfold getComponentById
  cases hf : components.find? (fun c => c.id == i) with
  | none =>
      have hall : ∀ c ∈ components, ¬((fun c : Component => c.id == i) c = true) :=
        List.find?_eq_none.mp hf
      refine ⟨⟨fun _ c hc => ?_, fun _ => rfl⟩, ?_, ?_⟩
      · intro hid
        exact hall c hc (by simp [hid])
      · intro c hok
        cases hok
      · intro c hc hid
        exact absurd (by simp [hid]) (hall c hc)
  | some c0 =>
      have hmem : c0 ∈ components := List.mem_of_find?_eq_some hf
      have hid0 : c0.id = i := by
        have := List.find?_some hf
        simpa using this
      refine ⟨⟨fun hok => ?_, fun hall => ?_⟩, ?_, ?_⟩
      · cases hok
      · exact absurd hid0 (hall c0 hmem)
      · intro c hok
        cases hok
        exact ⟨hmem, hid0⟩
      · intro c hc hid
        have : c = c0 := components_id_injective c hc c0 hmem (by rw [hid, hid0])
        rw [this]

/-- Witness for C10 at a concrete id matching no component: the route
responds 404 echoing the id. -/
theorem claim_c10_component_lookup_witness :
    getComponentById "no-such-agent" = .notFound "no-such-agent" :=
  (claim_c10_component_lookup "no-such-agent").1.mpr (by decide)

end OasisOS
